import Mathlib

/-!
Verification of the yamdb_final authorization and validation core.

The definitions below are a shallow embedding of the Python sources:
  api_yamdb/reviews/models.py      (User, Title, Review data model, constraints)
  api_yamdb/api/permissions.py     (IsAdmin, IsAdminOrReadOnly, IsStaffOrAuthorOrReadOnly)
  api_yamdb/api/serializers.py     (SignUpSerializer, UserSerializer, UserEditSerializer,
                                    ReviewSerializer, ReadOnlyTitleSerializer)
  api_yamdb/api/views.py           (register, get_jwt_token, ReviewViewSet, TitlesViewSet)

Django/DRF machinery consumed through narrow interfaces (token generator,
ORM filters, HTTP method classification, field serialization) is modelled
explicitly where the sources depend on its observable behaviour.
-/

namespace Yamdb

/-- User.ROLES in reviews/models.py: admin, moderator, user. -/
inductive Role where
  | user
  | moderator
  | admin
deriving DecidableEq, Repr

/-- The facts about the requesting user that permissions.py reads:
`is_authenticated`, `is_superuser` (Django built-ins), `role` (model field)
and the user id behind the `obj.author == request.user` comparison. -/
structure Actor where
  isAuthenticated : Bool
  isSuperuser : Bool
  role : Role
  id : Nat
deriving DecidableEq, Repr

/-- User.is_admin property: `self.role == self.ADMIN`. -/
def Actor.isAdmin (a : Actor) : Bool := a.role == Role.admin

/-- User.is_moderator property: `self.role == self.MODERATOR`. -/
def Actor.isModerator (a : Actor) : Bool := a.role == Role.moderator

/-- HTTP-like methods the permission classes branch on. -/
inductive Method where
  | get
  | head
  | options
  | post
  | put
  | patch
  | delete
deriving DecidableEq, Repr

/-- rest_framework.permissions.SAFE_METHODS: GET, HEAD, OPTIONS. -/
def Method.isSafe : Method → Bool
  | .get => true
  | .head => true
  | .options => true
  | _ => false

/-- IsAdminOrReadOnly.has_permission (permissions.py lines 10-21):
safe methods pass for anyone; otherwise the user must be authenticated
and admin-role or superuser. -/
def isAdminOrReadOnly (m : Method) (a : Actor) : Bool :=
  if m.isSafe then true
  else a.isAuthenticated && (a.isAdmin || a.isSuperuser)

/-- IsStaffOrAuthorOrReadOnly.has_permission (permissions.py lines 28-30):
safe method, or authenticated. -/
def staffOrAuthorHasPermission (m : Method) (a : Actor) : Bool :=
  m.isSafe || a.isAuthenticated

/-- IsStaffOrAuthorOrReadOnly.has_object_permission (permissions.py lines
32-40): safe methods pass; otherwise superuser, admin, moderator, or the
object's author. `authorId` is the id behind `obj.author`. -/
def staffOrAuthorHasObjectPermission (m : Method) (a : Actor) (authorId : Nat) : Bool :=
  if m.isSafe then true
  else a.isSuperuser || a.isAdmin || a.isModerator || authorId == a.id

/-- Python str.lower on the ASCII range: what `value.lower()` in
validate_username and the iexact comparison of the username_is_not_me
constraint perform on the usernames involved. -/
def lowerChar (c : Char) : Char :=
  if 65 ≤ c.toNat ∧ c.toNat ≤ 90 then Char.ofNat (c.toNat + 32) else c

/-- String lowering, character by character. -/
def lowerStr (s : String) : String := String.mk (s.data.map lowerChar)

/-- Error taxonomy at the operation boundary. `validationError` is a DRF
ValidationError (400-equivalent), `notFound` a 404-equivalent,
`integrityError` a storage-layer constraint violation, which DRF does not
convert into a ValidationError. -/
inductive ApiError where
  | validationError
  | notFound
  | permissionDenied
  | integrityError
deriving DecidableEq, Repr

deriving instance DecidableEq for Except

/-- A stored User row: the fields the signup/token flow reads. `stateTag`
models the internal state (password hash, last_login, confirmation data)
that django.contrib.auth.tokens.default_token_generator hashes into the
confirmation code: the code stays valid only while that state is
unchanged. -/
structure UserRec where
  id : Nat
  username : String
  email : String
  role : Role
  stateTag : Nat
deriving DecidableEq, Repr

/-- default_token_generator.make_token modelled as an injective function of
the user's identity and current state. -/
def makeToken (u : UserRec) : Nat := Nat.pair u.id u.stateTag

/-- default_token_generator.check_token: the submitted code verifies exactly
when it is the token of the user's current state. -/
def checkToken (u : UserRec) (code : Nat) : Bool := code == makeToken u

/-- get_object_or_404(User, username=...) lookup used by get_jwt_token. -/
def findByUsername (users : List UserRec) (uname : String) : Option UserRec :=
  users.find? (fun u => u.username == uname)

/-- UniqueValidator(queryset=User.objects.all()) on a username field: an
exact-match collision lookup (`.filter(username=value).exists()`). -/
def usernameTaken (users : List UserRec) (uname : String) : Bool :=
  users.any (fun u => u.username == uname)

/-- UniqueValidator on an email field: exact-match collision lookup. -/
def emailTaken (users : List UserRec) (mail : String) : Bool :=
  users.any (fun u => u.email == mail)

/-- SignUpSerializer validation (serializers.py lines 21-43): UniqueValidator
on username, UniqueValidator on email, and validate_username rejecting a
username whose lower-casing is "me". All three raise ValidationError. -/
def signUpValidate (users : List UserRec) (uname mail : String) : Except ApiError Unit :=
  if usernameTaken users uname then .error .validationError
  else if emailTaken users mail then .error .validationError
  else if lowerStr uname == "me" then .error .validationError
  else .ok ()

/-- register view (views.py lines 26-51): validate with SignUpSerializer and
save a new user (role defaults to "user"), re-fetch it with
get_object_or_404(User, username=..., email=...), issue a confirmation code
for it and mail it. Returns the stored users and the issued code. -/
def register (users : List UserRec) (uname mail : String) (newId freshTag : Nat) :
    Except ApiError (List UserRec × Nat) :=
  match signUpValidate users uname mail with
  | .error e => .error e
  | .ok _ =>
    let users2 := users ++ [⟨newId, uname, mail, Role.user, freshTag⟩]
    match users2.find? (fun u => u.username == uname && u.email == mail) with
    | none => .error .notFound
    | some u => .ok (users2, makeToken u)

/-- Outcome of the get_jwt_token view. -/
inductive TokenResult where
  | notFound
  | badRequest
  | token (userId : Nat)
deriving DecidableEq, Repr

/-- get_jwt_token view (views.py lines 54-74): look the user up by username
(404 when absent), then check_token: on success mint an access token
carrying the user's identity, otherwise return a 400. -/
def getJwtToken (users : List UserRec) (uname : String) (code : Nat) : TokenResult :=
  match findByUsername users uname with
  | none => .notFound
  | some u => if checkToken u code then .token u.id else .badRequest

/-- UserSerializer validation (serializers.py lines 46-63): UniqueValidator on
username and email; unlike SignUpSerializer there is no reserved-name
check. -/
def userSerializerValidate (users : List UserRec) (uname mail : String) :
    Except ApiError Unit :=
  if usernameTaken users uname then .error .validationError
  else if emailTaken users mail then .error .validationError
  else .ok ()

/-- The storage layer for User rows: AbstractUser's unique username column and
the CheckConstraint username_is_not_me, `~Q(username__iexact="me")`, from
reviews/models.py lines 44-49. A violated constraint surfaces as a
storage-layer integrity error, not as a ValidationError, because the view
never runs model-level constraint validation. -/
def dbInsertUser (users : List UserRec) (u : UserRec) : Except ApiError (List UserRec) :=
  if lowerStr u.username == "me" then .error .integrityError
  else if usernameTaken users u.username then .error .integrityError
  else .ok (users ++ [u])

/-- POST /users handled by UserViewSet with UserSerializer: serializer
validation, then the model save hitting the storage constraints. -/
def adminCreateUser (users : List UserRec) (uname mail : String) (r : Role)
    (nid tag : Nat) : Except ApiError (List UserRec) :=
  match userSerializerValidate users uname mail with
  | .error e => .error e
  | .ok _ => dbInsertUser users ⟨nid, uname, mail, r, tag⟩

/-- The profile fields exposed by UserEditSerializer (serializers.py
lines 66-73). -/
structure Profile where
  username : String
  email : String
  firstName : String
  lastName : String
  bio : String
  role : Role
deriving DecidableEq, Repr

/-- A partial PATCH body: none means the field was not submitted. -/
structure PatchData where
  username : Option String
  email : Option String
  firstName : Option String
  lastName : Option String
  bio : Option String
  role : Option Role
deriving DecidableEq, Repr

/-- UserViewSet.patch_own_profile (views.py lines 101-111) applying
UserEditSerializer with partial=True: every submitted field replaces the
stored one, except role, which is in read_only_fields and is dropped from
the input before the update. -/
def patchOwnProfile (p : Profile) (d : PatchData) : Profile :=
  { username := d.username.getD p.username
    email := d.email.getD p.email
    firstName := d.firstName.getD p.firstName
    lastName := d.lastName.getD p.lastName
    bio := d.bio.getD p.bio
    role := p.role }

/-- A stored Review row (reviews/models.py lines 128-163): owning title,
author, and a score constrained to 1..10 by the model validators. -/
structure ReviewRec where
  id : Nat
  titleId : Nat
  authorId : Nat
  score : Int
deriving DecidableEq, Repr

/-- A stored Title row (reviews/models.py lines 79-125). `rating` is the
stored model column with default 10; the read path never consults it. -/
structure TitleRec where
  id : Nat
  name : String
  year : Int
  rating : Int
deriving DecidableEq, Repr

/-- The persistent catalog state the review/title operations touch. -/
structure Catalog where
  titles : List TitleRec
  reviews : List ReviewRec
deriving DecidableEq, Repr

/-- Review.objects.filter(title=title, author=author).exists(): the
application-layer duplicate check run both by ReviewSerializer.validate
(serializers.py lines 132-141) and ReviewViewSet.perform_create
(views.py lines 178-186). -/
def reviewExists (c : Catalog) (titleId authorId : Nat) : Bool :=
  c.reviews.any (fun r => r.titleId == titleId && r.authorId == authorId)

/-- get_object_or_404(Title, id=title_id). -/
def findTitle (c : Catalog) (titleId : Nat) : Option TitleRec :=
  c.titles.find? (fun t => t.id == titleId)

/-- POST /titles/{title_id}/reviews: serializer field validation (the score
range 1..10 coming from the model validators), then
ReviewSerializer.validate (title lookup with 404, duplicate-pair check) and
ReviewViewSet.perform_create (re-checking the pair and saving with author
and title injected from the request context). -/
def createReview (c : Catalog) (titleId authorId newId : Nat) (score : Int) :
    Except ApiError Catalog :=
  if score < 1 ∨ 10 < score then .error .validationError
  else
    match findTitle c titleId with
    | none => .error .notFound
    | some _ =>
      if reviewExists c titleId authorId then .error .validationError
      else .ok { c with reviews := c.reviews ++ [⟨newId, titleId, authorId, score⟩] }

/-- The request boundary: a failed creation leaves the stored state
untouched (no partial writes survive a validation failure). -/
def runCreateReview (c : Catalog) (titleId authorId newId : Nat) (score : Int) :
    Catalog × Option ApiError :=
  match createReview c titleId authorId newId score with
  | .ok c2 => (c2, none)
  | .error e => (c, some e)

/-- max_value_current_year (reviews/models.py lines 7-12): MaxValueValidator
built with the wall-clock current year, so a value fails exactly when it
exceeds the year at validation time. Returns true when the validator
raises. -/
def maxValueCurrentYearFails (currentYear value : Int) : Bool :=
  currentYear < value

/-- The write-path validation of Title.year run by TitlesSerializer: DRF maps
the model field's MinValueValidator(0) to a lower bound and keeps
max_value_current_year in the field's validator list, both raising
ValidationError. -/
def validateTitleYear (currentYear year : Int) : Except ApiError Unit :=
  if year < 0 then .error .validationError
  else if maxValueCurrentYearFails currentYear year then .error .validationError
  else .ok ()

/-- A Title create/update on TitlesViewSet: year validation, then save. -/
def writeTitle (c : Catalog) (currentYear : Int) (t : TitleRec) :
    Except ApiError Catalog :=
  match validateTitleYear currentYear t.year with
  | .error e => .error e
  | .ok _ => .ok { c with titles := c.titles ++ [t] }

/-- The request boundary for Title writes: a failure leaves the state
untouched. -/
def runWriteTitle (c : Catalog) (currentYear : Int) (t : TitleRec) :
    Catalog × Option ApiError :=
  match writeTitle c currentYear t with
  | .ok c2 => (c2, none)
  | .error e => (c, some e)

/-- The scores of a title's reviews (the reviews related manager, scoped to
the title). -/
def titleScores (c : Catalog) (titleId : Nat) : List Int :=
  (c.reviews.filter (fun r => r.titleId == titleId)).map (fun r => r.score)

/-- The Avg("reviews__score") annotation from TitlesViewSet.queryset
(views.py lines 145-147): SQL AVG, i.e. NULL when there are no rows and
the exact rational mean otherwise. -/
def scoresAvg (scores : List Int) : Option ℚ :=
  match scores with
  | [] => none
  | _ => some ((scores.map (fun s => (s : ℚ))).sum / (scores.length : ℚ))

/-- Python int() applied to a float: truncation toward zero. This is what
serializers.IntegerField.to_representation does to the average. -/
def truncRat (q : ℚ) : Int :=
  if q < 0 then -⌊-q⌋ else ⌊q⌋

/-- The rating field of ReadOnlyTitleSerializer (serializers.py lines
106-118): an IntegerField sourced from the reviews__score__avg annotation,
so the response carries int(avg), null when the annotation is NULL; the
stored Title.rating column is not its source. -/
def ratingRead (c : Catalog) (titleId : Nat) : Option Int :=
  (scoresAvg (titleScores c titleId)).map truncRat

/-- Overwrite the stored rating column of a title row, to state that the read
path never surfaces it. -/
def setStoredRating (c : Catalog) (titleId : Nat) (v : Int) : Catalog :=
  { c with
    titles := c.titles.map (fun t => if t.id == titleId then { t with rating := v } else t) }

/-- Concrete catalog used to exercise the rating read path: one title with
two reviews scoring 7 and 8. -/
def ratingReadExample : Catalog :=
  { titles := [⟨1, "t", 2000, 10⟩]
    reviews := [⟨0, 1, 4, 7⟩, ⟨1, 1, 5, 8⟩] }

end Yamdb

namespace Yamdb

/-- C2: for every non-safe object-level action on a Review or Comment,
IsStaffOrAuthorOrReadOnly.has_object_permission allows exactly the
superusers, admins, moderators and the object's author; every other
actor is denied. -/
theorem review_object_permission_characterisation
    (m : Method) (a : Actor) (authorId : Nat) (hns : m.isSafe = false) :
    staffOrAuthorHasObjectPermission m a authorId = true ↔
      (a.isSuperuser = true ∨ a.role = Role.admin ∨ a.role = Role.moderator
        ∨ authorId = a.id) := by
  simp [staffOrAuthorHasObjectPermission, hns, Actor.isAdmin, Actor.isModerator]
  tauto

/-- Witness for C2: an authenticated plain user who is not the author is
denied a delete, while the author is allowed. -/
theorem review_object_permission_witness :
    staffOrAuthorHasObjectPermission Method.delete
      { isAuthenticated := true, isSuperuser := false, role := Role.user, id := 2 } 1 = false
    ∧ staffOrAuthorHasObjectPermission Method.delete
      { isAuthenticated := true, isSuperuser := false, role := Role.user, id := 1 } 1 = true := by
  constructor
  · have h := review_object_permission_characterisation Method.delete
      { isAuthenticated := true, isSuperuser := false, role := Role.user, id := 2 } 1 (by decide)
    by_contra hc
    simp at hc
    have := h.mp hc
    simp at this
  · exact (review_object_permission_characterisation Method.delete
      { isAuthenticated := true, isSuperuser := false, role := Role.user, id := 1 } 1
      (by decide)).mpr (by decide)

/-- C3: on Category/Genre/Title endpoints, IsAdminOrReadOnly allows a request
exactly when the method is safe (read/list, for every actor including
unauthenticated ones), or the actor is authenticated with role admin or is
a superuser. -/
theorem catalog_permission_characterisation (m : Method) (a : Actor) :
    isAdminOrReadOnly m a = true ↔
      (m.isSafe = true
        ∨ (a.isAuthenticated = true ∧ (a.role = Role.admin ∨ a.isSuperuser = true))) := by
  cases hm : m.isSafe <;> simp [isAdminOrReadOnly, hm, Actor.isAdmin]

/-- C1: when the title exists and the scores are in range, the first review
creation for a (title, author) pair succeeds and appends the review; a
second creation for the same pair then fails with ValidationError and
leaves the stored reviews unchanged. -/
theorem review_unique_per_pair (c : Catalog) (titleId authorId newId newId2 : Nat)
    (score score2 : Int)
    (ht : (findTitle c titleId).isSome = true)
    (hs1 : 1 ≤ score) (hs1b : score ≤ 10)
    (hs2 : 1 ≤ score2) (hs2b : score2 ≤ 10)
    (hfresh : reviewExists c titleId authorId = false) :
    createReview c titleId authorId newId score
      = .ok { c with reviews := c.reviews ++ [⟨newId, titleId, authorId, score⟩] }
    ∧ runCreateReview { c with reviews := c.reviews ++ [⟨newId, titleId, authorId, score⟩] }
        titleId authorId newId2 score2
      = ({ c with reviews := c.reviews ++ [⟨newId, titleId, authorId, score⟩] },
         some ApiError.validationError) := by
  obtain ⟨t, htt⟩ := Option.isSome_iff_exists.mp ht
  have hr1 : ¬(score < 1 ∨ 10 < score) := by omega
  have hr2 : ¬(score2 < 1 ∨ 10 < score2) := by omega
  have htt2 : findTitle
      { c with reviews := c.reviews ++ [⟨newId, titleId, authorId, score⟩] } titleId
      = some t := htt
  have hex2 : reviewExists
      { c with reviews := c.reviews ++ [⟨newId, titleId, authorId, score⟩] }
      titleId authorId = true := by
    simp [reviewExists]
  have h2 : createReview
      { c with reviews := c.reviews ++ [⟨newId, titleId, authorId, score⟩] }
      titleId authorId newId2 score2 = .error .validationError := by
    simp [createReview, hr2, htt2, hex2]
  refine ⟨?_, ?_⟩
  · simp [createReview, hr1, htt, hfresh]
  · simp [runCreateReview, h2]

/-- Witness for C1: on a catalog with one title and no reviews, the first
creation for the pair (title 1, author 5) succeeds and the repeat fails
with ValidationError, leaving the state as after the first creation. -/
theorem review_unique_per_pair_witness :
    createReview { titles := [⟨1, "t", 2000, 10⟩], reviews := [] } 1 5 0 8
      = .ok { titles := [⟨1, "t", 2000, 10⟩], reviews := [⟨0, 1, 5, 8⟩] }
    ∧ runCreateReview { titles := [⟨1, "t", 2000, 10⟩], reviews := [⟨0, 1, 5, 8⟩] } 1 5 1 9
      = ({ titles := [⟨1, "t", 2000, 10⟩], reviews := [⟨0, 1, 5, 8⟩] },
         some ApiError.validationError) :=
  review_unique_per_pair { titles := [⟨1, "t", 2000, 10⟩], reviews := [] } 1 5 0 1 8 9
    (by decide) (by decide) (by decide) (by decide) (by decide) (by decide)

/-- C4: the token exchange returns a 404-equivalent when no user has the
submitted username; with an existing user and a code that does not verify
against the user's current state it returns a 400-equivalent and never a
token; a verifying code yields the user's access token. -/
theorem token_exchange_characterisation (users : List UserRec) (uname : String)
    (code : Nat) :
    (findByUsername users uname = none → getJwtToken users uname code = .notFound)
    ∧ (∀ u, findByUsername users uname = some u → checkToken u code = false →
        getJwtToken users uname code = .badRequest
        ∧ ∀ uid, getJwtToken users uname code ≠ TokenResult.token uid)
    ∧ (∀ u, findByUsername users uname = some u → checkToken u code = true →
        getJwtToken users uname code = .token u.id) := by
  refine ⟨fun hn => ?_, fun u hu hc => ⟨?_, fun uid => ?_⟩, fun u hu hc => ?_⟩
  · simp [getJwtToken, hn]
  · simp [getJwtToken, hu, hc]
  · simp [getJwtToken, hu, hc]
  · simp [getJwtToken, hu, hc]

/-- Witness for C4: with one stored user, an unknown username gives 404, a
wrong code gives 400, and the code bound to the user's state gives the
token for that user. -/
theorem token_exchange_characterisation_witness :
    getJwtToken [⟨3, "alice", "a@x.com", Role.user, 9⟩] "bob" 0 = TokenResult.notFound
    ∧ getJwtToken [⟨3, "alice", "a@x.com", Role.user, 9⟩] "alice" 0 = TokenResult.badRequest
    ∧ getJwtToken [⟨3, "alice", "a@x.com", Role.user, 9⟩] "alice"
        (makeToken ⟨3, "alice", "a@x.com", Role.user, 9⟩) = TokenResult.token 3 :=
  ⟨(token_exchange_characterisation _ "bob" 0).1 (by decide),
   ((token_exchange_characterisation [⟨3, "alice", "a@x.com", Role.user, 9⟩] "alice" 0).2.1
      ⟨3, "alice", "a@x.com", Role.user, 9⟩ (by decide) (by decide)).1,
   (token_exchange_characterisation [⟨3, "alice", "a@x.com", Role.user, 9⟩] "alice"
      (makeToken ⟨3, "alice", "a@x.com", Role.user, 9⟩)).2.2
      ⟨3, "alice", "a@x.com", Role.user, 9⟩ (by decide) (by decide)⟩

/-- C5: any Title create or update whose year exceeds the current calendar
year at validation time fails with ValidationError, and the stored state
is unchanged. -/
theorem title_year_future_rejected (c : Catalog) (currentYear : Int) (t : TitleRec)
    (h : currentYear < t.year) :
    runWriteTitle c currentYear t = (c, some ApiError.validationError) := by
  unfold runWriteTitle writeTitle validateTitleYear maxValueCurrentYearFails
  by_cases h0 : t.year < 0
  · simp [h0]
  · simp [h0, h]

/-- Witness for C5: writing a title dated 2023 when the current year is 2022
fails with ValidationError and leaves the empty catalog unchanged. -/
theorem title_year_future_rejected_witness :
    runWriteTitle { titles := [], reviews := [] } 2022 ⟨1, "t2", 2023, 10⟩
      = ({ titles := [], reviews := [] }, some ApiError.validationError) :=
  title_year_future_rejected { titles := [], reviews := [] } 2022 ⟨1, "t2", 2023, 10⟩
    (by decide)

/-- C6: a PATCH of the own profile applies every submitted field except role:
the stored role survives any submitted role value, the request behaves
exactly as if role had not been submitted, and each other submitted field
replaces the stored one. -/
theorem own_profile_role_read_only (p : Profile) (d : PatchData) :
    (patchOwnProfile p d).role = p.role
    ∧ patchOwnProfile p d = patchOwnProfile p { d with role := none }
    ∧ (patchOwnProfile p d).username = d.username.getD p.username
    ∧ (patchOwnProfile p d).email = d.email.getD p.email
    ∧ (patchOwnProfile p d).firstName = d.firstName.getD p.firstName
    ∧ (patchOwnProfile p d).lastName = d.lastName.getD p.lastName
    ∧ (patchOwnProfile p d).bio = d.bio.getD p.bio := by
  simp [patchOwnProfile]

/-- When no stored user has the username, the post-save lookup by
username+email finds exactly the freshly appended user. -/
theorem find_new_user (users : List UserRec) (uname mail : String) (nid tag : Nat)
    (h : usernameTaken users uname = false) :
    (users ++ [(⟨nid, uname, mail, Role.user, tag⟩ : UserRec)]).find?
        (fun u => u.username == uname && u.email == mail)
      = some (⟨nid, uname, mail, Role.user, tag⟩ : UserRec) := by
  induction users with
  | nil => simp
  | cons x xs ih =>
    simp only [usernameTaken, List.any_cons, Bool.or_eq_false_iff] at h
    rw [List.cons_append, List.find?_cons_of_neg]
    · exact ih (by simpa [usernameTaken] using h.2)
    · simp [h.1]

/-- C7 counterexample: with "alice" stored, registering "Alice" (differing
only in letter case) succeeds instead of failing with ValidationError. -/
theorem signup_case_insensitive_counterexample :
    register [⟨0, "alice", "a@x.com", Role.user, 0⟩] "Alice" "b@x.com" 1 7
      = .ok ([⟨0, "alice", "a@x.com", Role.user, 0⟩, ⟨1, "Alice", "b@x.com", Role.user, 7⟩],
             makeToken ⟨1, "Alice", "b@x.com", Role.user, 7⟩) := by
  decide

/-- C7 amended: the signup collision check is exact-match (case-sensitive):
a username already stored verbatim fails with ValidationError, while a
username differing from every stored one, even only by letter case,
passes the collision check and, with a fresh email and a non-reserved
name, registers. -/
theorem signup_uniqueness_case_sensitive (users : List UserRec) (uname mail : String)
    (nid tag : Nat) :
    (usernameTaken users uname = true →
      register users uname mail nid tag = .error ApiError.validationError)
    ∧ (usernameTaken users uname = false → emailTaken users mail = false →
        lowerStr uname ≠ "me" →
        register users uname mail nid tag
          = .ok (users ++ [⟨nid, uname, mail, Role.user, tag⟩],
                 makeToken ⟨nid, uname, mail, Role.user, tag⟩)) := by
  constructor
  · intro h
    simp [register, signUpValidate, h]
  · intro hu he hm
    have hv : signUpValidate users uname mail = .ok () := by
      simp [signUpValidate, hu, he, hm]
    have hfind := find_new_user users uname mail nid tag hu
    unfold register
    rw [hv]
    simp only [hfind]

/-- Witness for C7 amended: an exact duplicate of "alice" fails with
ValidationError, and a fresh "bob" registers. -/
theorem signup_uniqueness_case_sensitive_witness :
    register [⟨0, "alice", "a@x.com", Role.user, 0⟩] "alice" "c@x.com" 1 4
      = .error ApiError.validationError
    ∧ register [] "bob" "b@x.com" 0 3
      = .ok ([⟨0, "bob", "b@x.com", Role.user, 3⟩],
             makeToken ⟨0, "bob", "b@x.com", Role.user, 3⟩) :=
  ⟨(signup_uniqueness_case_sensitive [⟨0, "alice", "a@x.com", Role.user, 0⟩]
      "alice" "c@x.com" 1 4).1 (by decide),
   (signup_uniqueness_case_sensitive [] "bob" "b@x.com" 0 3).2
      (by decide) (by decide) (by decide)⟩

/-- C8 counterexample: a repeat registration with the same username and email
as the already-stored user fails with ValidationError instead of
re-issuing a confirmation code. -/
theorem repeat_signup_counterexample :
    register [⟨0, "alice", "a@x.com", Role.user, 0⟩] "alice" "a@x.com" 1 7
      = .error ApiError.validationError := by
  decide

/-- C8 amended: registration fails with ValidationError exactly when the
username is already stored (by any user, the requester included), the
email is already stored, or the username lower-cases to "me"; otherwise it
creates the user and issues a confirmation code bound to its state. -/
theorem register_validation_characterisation (users : List UserRec) (uname mail : String)
    (nid tag : Nat) :
    (register users uname mail nid tag = .error ApiError.validationError
      ↔ (usernameTaken users uname = true ∨ emailTaken users mail = true
          ∨ lowerStr uname = "me"))
    ∧ (usernameTaken users uname = false → emailTaken users mail = false →
        lowerStr uname ≠ "me" →
        register users uname mail nid tag
          = .ok (users ++ [⟨nid, uname, mail, Role.user, tag⟩],
                 makeToken ⟨nid, uname, mail, Role.user, tag⟩)) := by
  have hok : usernameTaken users uname = false → emailTaken users mail = false →
      lowerStr uname ≠ "me" →
      register users uname mail nid tag
        = .ok (users ++ [⟨nid, uname, mail, Role.user, tag⟩],
               makeToken ⟨nid, uname, mail, Role.user, tag⟩) := by
    intro hu he hm
    have hv : signUpValidate users uname mail = .ok () := by
      simp [signUpValidate, hu, he, hm]
    have hfind := find_new_user users uname mail nid tag hu
    unfold register
    rw [hv]
    simp only [hfind]
  refine ⟨⟨fun herr => ?_, fun hcond => ?_⟩, hok⟩
  · by_cases hu : usernameTaken users uname = true
    · exact Or.inl hu
    · by_cases he : emailTaken users mail = true
      · exact Or.inr (Or.inl he)
      · by_cases hm : lowerStr uname = "me"
        · exact Or.inr (Or.inr hm)
        · rw [hok (by simpa using hu) (by simpa using he) hm] at herr
          cases herr
  · rcases hcond with hu | he | hm
    · simp [register, signUpValidate, hu]
    · by_cases hu : usernameTaken users uname = true
      · simp [register, signUpValidate, hu]
      · simp [register, signUpValidate, (by simpa using hu : usernameTaken users uname = false), he]
    · by_cases hu : usernameTaken users uname = true
      · simp [register, signUpValidate, hu]
      · by_cases he : emailTaken users mail = true
        · simp [register, signUpValidate, (by simpa using hu : usernameTaken users uname = false), he]
        · simp [register, signUpValidate, (by simpa using hu : usernameTaken users uname = false),
            (by simpa using he : emailTaken users mail = false), hm]

/-- Witness for C8 amended: a fresh "bob" registers; a second registration
with the very same username and email fails with ValidationError. -/
theorem register_validation_characterisation_witness :
    register [] "carol" "c@x.com" 0 3
      = .ok ([⟨0, "carol", "c@x.com", Role.user, 3⟩],
             makeToken ⟨0, "carol", "c@x.com", Role.user, 3⟩)
    ∧ register [⟨0, "carol", "c@x.com", Role.user, 3⟩] "carol" "c@x.com" 1 4
      = .error ApiError.validationError :=
  ⟨(register_validation_characterisation [] "carol" "c@x.com" 0 3).2
      (by decide) (by decide) (by decide),
   (register_validation_characterisation [⟨0, "carol", "c@x.com", Role.user, 3⟩]
      "carol" "c@x.com" 1 4).1.mpr (Or.inl (by decide))⟩

/-- C9 counterexample: creating a user named "Me" through the admin user
endpoint passes serializer validation and is rejected only by the storage
check constraint, surfacing as an integrity error, not a ValidationError. -/
theorem reserved_username_counterexample :
    adminCreateUser [] "Me" "m@x.com" Role.user 1 0 = .error ApiError.integrityError
    ∧ ApiError.integrityError ≠ ApiError.validationError := by
  decide

/-- C9 amended: a username lower-casing to "me" always fails signup with
ValidationError; on the admin user-creation path the serializer has no
reserved-name check, so whenever its uniqueness validation passes, the
reserved name is rejected only by the storage CheckConstraint as an
integrity error rather than a ValidationError. -/
theorem reserved_username_enforcement (users : List UserRec) (uname mail : String)
    (r : Role) (nid tag : Nat) (h : lowerStr uname = "me") :
    signUpValidate users uname mail = .error ApiError.validationError
    ∧ (userSerializerValidate users uname mail = .ok () →
        adminCreateUser users uname mail r nid tag = .error ApiError.integrityError) := by
  constructor
  · unfold signUpValidate
    split
    · rfl
    · split
      · rfl
      · simp [h]
  · intro hok
    simp [adminCreateUser, hok, dbInsertUser, h]

/-- Witness for C9 amended: the any-case reserved name "ME" fails signup with
ValidationError and fails admin creation with an integrity error. -/
theorem reserved_username_enforcement_witness :
    signUpValidate [] "ME" "m@x.com" = .error ApiError.validationError
    ∧ adminCreateUser [] "ME" "m@x.com" Role.user 0 0 = .error ApiError.integrityError :=
  ⟨(reserved_username_enforcement [] "ME" "m@x.com" Role.user 0 0 (by decide)).1,
   (reserved_username_enforcement [] "ME" "m@x.com" Role.user 0 0 (by decide)).2 (by decide)⟩

/-- C10 counterexample: with reviews scoring 7 and 8 the read path returns
rating 7, while the average of the scores is 15/2, so the returned rating
does not equal the average of the scores. -/
theorem rating_average_counterexample :
    ratingRead ratingReadExample 1 = some 7
    ∧ scoresAvg (titleScores ratingReadExample 1) = some ((15 : ℚ) / 2)
    ∧ ((7 : ℚ) ≠ (15 : ℚ) / 2) := by
  refine ⟨?_, ?_, by norm_num⟩
  · simp [ratingRead, ratingReadExample, titleScores, scoresAvg, truncRat]
    norm_num
  · simp [ratingReadExample, titleScores, scoresAvg]
    norm_num

/-- C10 amended: the read-path rating is null for a title with no reviews and
otherwise the integer truncation of the average of the title's review
scores; the stored Title.rating column never influences it. -/
theorem rating_read_characterisation (c : Catalog) (titleId : Nat) :
    (titleScores c titleId = [] → ratingRead c titleId = none)
    ∧ (titleScores c titleId ≠ [] →
        ratingRead c titleId
          = some (truncRat (((titleScores c titleId).map (fun s => (s : ℚ))).sum
              / ((titleScores c titleId).length : ℚ))))
    ∧ (∀ v, ratingRead (setStoredRating c titleId v) titleId = ratingRead c titleId) := by
  refine ⟨fun h => ?_, fun h => ?_, fun v => rfl⟩
  · simp [ratingRead, h, scoresAvg]
  · cases hsc : titleScores c titleId with
    | nil => exact absurd hsc h
    | cons a as =>
      simp [ratingRead, hsc, scoresAvg]

/-- Witness for C10 amended: a title with no reviews reads a null rating; the
7-and-8 example reads the truncated average; overwriting the stored rating
column does not change the read value. -/
theorem rating_read_characterisation_witness :
    ratingRead { titles := [⟨1, "t", 2000, 10⟩], reviews := [] } 1 = none
    ∧ ratingRead ratingReadExample 1
      = some (truncRat (((titleScores ratingReadExample 1).map (fun s => (s : ℚ))).sum
          / ((titleScores ratingReadExample 1).length : ℚ)))
    ∧ ratingRead (setStoredRating ratingReadExample 1 3) 1 = ratingRead ratingReadExample 1 :=
  ⟨(rating_read_characterisation { titles := [⟨1, "t", 2000, 10⟩], reviews := [] } 1).1 rfl,
   (rating_read_characterisation ratingReadExample 1).2.1 (by decide),
   (rating_read_characterisation ratingReadExample 1).2.2 3⟩

end Yamdb
